import Mathlib

/-!
Shallow embedding of `app.py` (Flavour Fusion AI recipe blogger).

The program is a single Streamlit page: a function `generate_recipe_blog`
that configures the Gemini client, builds a prompt from a topic and a word
count, performs one synchronous API call and converts every outcome into a
returned string, plus a button handler that validates the two text inputs
and styles the returned string by its prefix.

The external world (the `genai` client and the response object) is
abstracted as an environment `ApiEnv`: each fallible operation of the
Python client is a field returning `Except` with the raised exception
rendered as its message string, exactly the value Python `str(e)` would
give.  Streamlit display calls (`st.info`, `st.warning`, `st.error`,
`st.subheader`, `st.markdown`) are recorded as an explicit list of
`DisplayWrite`s.  A Python exception escaping a function is an
`Except.error` in the result.
-/

namespace FlavourFusion

/-- Boolean test that the list `pat` occurs as a contiguous sublist of the
second argument; this models the Python operator `pat in s` on strings. -/
def charsContain (pat : List Char) : List Char → Bool
  | [] => List.isPrefixOf pat []
  | c :: rest => List.isPrefixOf pat (c :: rest) || charsContain pat rest

/-- Python `pat in s` on strings. -/
def strContains (s pat : String) : Bool := charsContain pat.data s.data

/-- Python `s.startswith(pat)`. -/
def strStartsWith (s pat : String) : Bool := List.isPrefixOf pat.data s.data

/-- Python `s.lower()` (ASCII letters, which covers every message matched
by the program). -/
def strLower (s : String) : String := String.mk (s.data.map Char.toLower)

/-- Propositional form of "sub occurs in s as a substring". -/
def ContainsSub (s sub : String) : Prop := ∃ pre post : String, s = pre ++ sub ++ post

/-- Propositional form of "s starts with p". -/
def StartsWithStr (s p : String) : Prop := ∃ rest : String, s = p ++ rest

/-- One message written to the Streamlit page. -/
inductive DisplayWrite where
  | info (s : String)
  | warning (s : String)
  | error (s : String)
  | subheader (s : String)
  | markdown (s : String)
deriving DecidableEq, Repr

/-- Outcome of reading `response.text` in Python: the attribute either
yields a string, raises `ValueError` (blocked content), or raises some
other exception with the given message. -/
inductive TextAccess where
  | ok (t : String)
  | valueError
  | otherError (msg : String)
deriving DecidableEq, Repr

/-- The observable part of a `generate_content` response object:
how `response.text` behaves, the value of
`response.prompt_feedback.block_reason.name` (`none` models the
`AttributeError` path where no block reason is available), and the texts
of `response.parts`. -/
structure ApiResponse where
  textAccess : TextAccess
  blockReason : Option String
  parts : List String
deriving DecidableEq, Repr

/-- Abstraction of the `genai` client: the three fallible operations the
function performs, in program order.  `configure` receives the api key,
`generate` receives the prompt; an `Except.error` is a raised exception
carrying `str(e)`. -/
structure ApiEnv where
  configure : String → Except String Unit
  modelCtor : Except String Unit
  generate : String → Except String ApiResponse

/-- Line 17 of `app.py`. -/
def model_name : String := "gemini-1.5-pro-latest"

/-- Literal template text before `{topic}`. -/
def promptPart1 : String := "\n        You are an expert food blogger writing for the \x27Flavour Fusion\x27 blog.\n        Your task is to generate a detailed, engaging, unique, and well-structured recipe blog post.\n\n        **Topic:** "

/-- Literal template text between `{topic}` and the first `{word_count}`. -/
def promptPart2 : String := "\n        **Approximate Word Count:** "

/-- Literal template text between the two `{word_count}` placeholders. -/
def promptPart3 : String := " words\n\n        **Instructions:**\n        1.  **Title:** Create a catchy and relevant title for the blog post.\n        2.  **Introduction:** Write a brief, enticing introduction about the recipe, perhaps its origin, why it\x27s special, or who it\x27s perfect for.\n        3.  **Ingredients:** Provide a clear list of ingredients with precise quantities (e.g., cups, grams, tbsp).\n        4.  **Instructions:** Give step-by-step preparation and cooking instructions. Make them easy to follow. Use clear action verbs.\n        5.  **Tips/Variations (Optional but recommended):** Include a small section with helpful tips, serving suggestions, or possible variations (e.g., making it vegan, gluten-free, spicier).\n        6.  **Conclusion:** A short concluding remark.\n        7.  **Tone:** Write in a friendly, approachable, and enthusiastic tone suitable for a food blog.\n        8.  **Length:** Ensure the total content is close to the requested "

/-- Literal template text after the second `{word_count}`. -/
def promptPart4 : String := " words.\n        9.  **Formatting:** Use Markdown for structure (like headings ##, lists *, bold **).\n\n        **Generate the blog post now:**\n        "

/-- The f-string of lines 23-42 of `app.py`: the prompt sent to the API,
embedding `topic` once and `word_count` twice. -/
def buildPrompt (topic : String) (word_count : Nat) : String :=
  promptPart1 ++ topic ++ promptPart2 ++ toString word_count ++ promptPart3
    ++ toString word_count ++ promptPart4

/-- Line 74 of `app.py`. -/
def invalidKeyMsg : String := "Error: The provided Google API Key is invalid. Please check and try again."

/-- Line 76 of `app.py`. -/
def permissionMsg : String := "Error: API key valid, but might lack permissions for the Gemini API. Please check your Google Cloud Project settings."

/-- Line 78 of `app.py` (the f-string referencing `model_name` and the
original message). -/
def modelNotFoundMsg (e : String) : String :=
  "Error: Model \x27" ++ model_name ++ "\x27 not found or inaccessible with your API key/region. Try alternatives like \x27gemini-1.0-pro\x27 or check available models in Google AI Studio. Original error: " ++ e

/-- Line 72 of `app.py`. -/
def genericFailureMsg (e : String) : String :=
  "Error: An unexpected error occurred during generation. Details: " ++ e

/-- The Python exception that escapes the handler of lines 69-80 when the
branch of line 78 is reached while the local `model_name` was never bound
(the exception arose before line 17 ran). -/
def unboundLocalErrorMsg : String :=
  "UnboundLocalError: local variable \x27model_name\x27 referenced before assignment"

/-- Lines 69-80 of `app.py`: the outer `except Exception as e` handler.
It first writes `st.error`, then classifies `str(e)` by substring match.
`model_name_bound` records whether line 17 had executed before the
exception was raised; when it had not, evaluating the f-string of line 78
raises `UnboundLocalError`, which escapes (`Except.error`). -/
def handleOuterExn (model_name_bound : Bool) (e : String) : DisplayWrite × Except String String :=
  (DisplayWrite.error ("An error occurred during API call or processing: " ++ e),
    if strContains e "API key not valid" then
      Except.ok invalidKeyMsg
    else if strContains (strLower e) "permission" then
      Except.ok permissionMsg
    else if strContains e "404" && strContains e "models/" then
      (if model_name_bound then Except.ok (modelNotFoundMsg e)
       else Except.error unboundLocalErrorMsg)
    else
      Except.ok (genericFailureMsg e))

/-- Line 55 with the `AttributeError` fallback of lines 53-57. -/
def blockReasonOf (r : ApiResponse) : String := r.blockReason.getD "Unknown"

/-- Line 58 of `app.py`. -/
def blockedWarnWrite (r : ApiResponse) : DisplayWrite :=
  DisplayWrite.warning ("Content generation potentially blocked. Reason: " ++ blockReasonOf r)

/-- Lines 47-66 of `app.py`: the inner try around `response.text`. -/
def handleResponse (r : ApiResponse) : List DisplayWrite × String :=
  match r.textAccess with
  | TextAccess.ok t => ([], t)
  | TextAccess.valueError =>
    match r.parts with
    | p :: _ =>
      ([blockedWarnWrite r],
        "Warning: Content generation issue (Reason: " ++ blockReasonOf r
          ++ "). Partial content (if any): " ++ p)
    | [] =>
      ([blockedWarnWrite r],
        "Error: Content generation failed or was blocked (Reason: " ++ blockReasonOf r
          ++ "). No content available.")
  | TextAccess.otherError inner_e =>
    ([], "Error: Could not parse the response content. Details: " ++ inner_e)

/-- Line 18 of `app.py`. -/
def modelInfoWrite : DisplayWrite := DisplayWrite.info ("Using model: " ++ model_name)

/-- Lines 9-80 of `app.py`: `generate_recipe_blog(api_key, topic, word_count)`.
The result is the list of display writes the call performs together with
either the returned string (`Except.ok`) or an exception that escapes to
the caller (`Except.error`). -/
def generate_recipe_blog (env : ApiEnv) (api_key topic : String) (word_count : Nat) :
    List DisplayWrite × Except String String :=
  match env.configure api_key with
  | Except.error e => ([(handleOuterExn false e).1], (handleOuterExn false e).2)
  | Except.ok _ =>
    match env.modelCtor with
    | Except.error e => ([modelInfoWrite, (handleOuterExn true e).1], (handleOuterExn true e).2)
    | Except.ok _ =>
      match env.generate (buildPrompt topic word_count) with
      | Except.error e => ([modelInfoWrite, (handleOuterExn true e).1], (handleOuterExn true e).2)
      | Except.ok r => (modelInfoWrite :: (handleResponse r).1, Except.ok (handleResponse r).2)

/-- Lines 110-119 of `app.py`: how the shell styles the returned string. -/
def display_result (blog_content : String) : DisplayWrite :=
  if blog_content ≠ "" ∧ (strStartsWith blog_content "Error:" = true ∨ strStartsWith blog_content "Warning:" = true) then
    (if strStartsWith blog_content "Error:" then DisplayWrite.error blog_content
     else DisplayWrite.warning blog_content)
  else if blog_content ≠ "" then DisplayWrite.markdown blog_content
  else DisplayWrite.error "Error: Received empty content from the API."

/-- Result of one press of the generate button: whether
`generate_recipe_blog` was invoked, the display writes performed, and an
exception escaping the handler if any. -/
structure ShellOutcome where
  generatorInvoked : Bool
  displays : List DisplayWrite
  propagated : Option String
deriving DecidableEq, Repr

/-- Lines 98-119 of `app.py`: the `if generate_button:` block.  Python
truthiness of a string is non-emptiness. -/
def generate_button_handler (env : ApiEnv) (api_key recipe_topic : String) (word_count : Nat) :
    ShellOutcome :=
  if api_key = "" then
    { generatorInvoked := false
      displays := [DisplayWrite.warning "Please enter your Google API Key."]
      propagated := none }
  else if recipe_topic = "" then
    { generatorInvoked := false
      displays := [DisplayWrite.warning "Please enter a recipe topic."]
      propagated := none }
  else
    match generate_recipe_blog env api_key recipe_topic word_count with
    | (ds, Except.error e) =>
      { generatorInvoked := true, displays := ds, propagated := some e }
    | (ds, Except.ok blog_content) =>
      { generatorInvoked := true
        displays := ds ++ [DisplayWrite.subheader "Generated Recipe Blog Post:",
          display_result blog_content]
        propagated := none }

/-- The success passthrough configuration: configuration and model
construction succeed and the response text is readable, yielding `s`. -/
def SuccessPassthrough (env : ApiEnv) (api_key topic : String) (word_count : Nat) (s : String) : Prop :=
  env.configure api_key = Except.ok () ∧ env.modelCtor = Except.ok () ∧
    ∃ r, env.generate (buildPrompt topic word_count) = Except.ok r ∧ r.textAccess = TextAccess.ok s

/-- A response whose text reads successfully. -/
def okResponse (t : String) : ApiResponse :=
  { textAccess := TextAccess.ok t, blockReason := none, parts := [] }

/-- An environment in which every client operation succeeds and the call
returns `r`. -/
def envOk (r : ApiResponse) : ApiEnv :=
  { configure := fun _ => Except.ok ()
    modelCtor := Except.ok ()
    generate := fun _ => Except.ok r }

/-- A blocked response with a reason and no parts. -/
def blockedNoPartsResp : ApiResponse :=
  { textAccess := TextAccess.valueError, blockReason := some "SAFETY", parts := [] }

/-- A blocked response with no discoverable reason and one partial part. -/
def blockedPartialResp : ApiResponse :=
  { textAccess := TextAccess.valueError, blockReason := none, parts := ["partial draft"] }

/-- An environment in which `generate_content` raises with message `msg`. -/
def envCallRaise (msg : String) : ApiEnv :=
  { configure := fun _ => Except.ok ()
    modelCtor := Except.ok ()
    generate := fun _ => Except.error msg }

/-- An environment in which `genai.configure` itself raises with message
`msg`, before line 17 binds `model_name`. -/
def envConfigRaise (msg : String) : ApiEnv :=
  { configure := fun _ => Except.error msg
    modelCtor := Except.ok ()
    generate := fun _ => Except.error msg }

/-! Supporting lemmas about the string primitives. -/

/-- charsContain decides the contiguous-sublist relation. -/
theorem charsContain_iff (pat l : List Char) : charsContain pat l = true ↔ pat <:+: l := by
  induction l with
  | nil =>
    simp [charsContain, List.isPrefixOf_iff_prefix, List.prefix_nil, List.infix_nil]
  | cons c rest ih =>
    simp [charsContain, List.isPrefixOf_iff_prefix, List.infix_cons_iff, ih]

/-- ContainsSub is the infix relation on the underlying character lists. -/
theorem ContainsSub_iff_sublist (s sub : String) : ContainsSub s sub ↔ sub.data <:+: s.data := by
  constructor
  · rintro ⟨pre, post, rfl⟩
    exact ⟨pre.data, post.data, by simp [String.data_append]⟩
  · rintro ⟨u, v, huv⟩
    exact ⟨⟨u⟩, ⟨v⟩, String.ext (by simp [String.data_append, ← huv])⟩

/-- strContains agrees with the propositional substring relation. -/
theorem strContains_iff (s pat : String) : strContains s pat = true ↔ ContainsSub s pat := by
  rw [strContains, charsContain_iff, ContainsSub_iff_sublist]

/-- strStartsWith agrees with the propositional prefix relation. -/
theorem strStartsWith_iff (s pat : String) : strStartsWith s pat = true ↔ StartsWithStr s pat := by
  rw [strStartsWith, List.isPrefixOf_iff_prefix]
  constructor
  · rintro ⟨rest, hrest⟩
    exact ⟨⟨rest⟩, String.ext (by simp [String.data_append, ← hrest])⟩
  · rintro ⟨rest, rfl⟩
    exact ⟨rest.data, by simp [String.data_append]⟩

theorem strContains_eq_true {s pat : String} (h : ContainsSub s pat) :
    strContains s pat = true :=
  (strContains_iff s pat).mpr h

theorem strContains_eq_false {s pat : String} (h : ¬ ContainsSub s pat) :
    strContains s pat = false :=
  Bool.eq_false_iff.mpr fun hb => h ((strContains_iff s pat).mp hb)

/-- A prefix of `a` is a prefix of `a ++ b`. -/
theorem strStartsWith_append (a b p : String) (h : strStartsWith a p = true) :
    strStartsWith (a ++ b) p = true := by
  rw [strStartsWith, List.isPrefixOf_iff_prefix] at h ⊢
  rw [String.data_append]
  exact h.trans (List.prefix_append _ _)

/-- A substring of `s` is a substring of `t ++ s`. -/
theorem containsSub_appendLeft {s sub : String} (t : String) (h : ContainsSub s sub) :
    ContainsSub (t ++ s) sub := by
  rw [ContainsSub_iff_sublist] at h ⊢
  rw [String.data_append]
  exact h.trans ((List.suffix_append t.data s.data).isInfix)

/-- Every `.ok` result of the outer exception handler starts with "Error:". -/
theorem handleOuterExn_ok_error (b : Bool) (e s : String)
    (h : (handleOuterExn b e).2 = Except.ok s) : strStartsWith s "Error:" = true := by
  rw [handleOuterExn] at h
  dsimp only at h
  split at h
  · injection h with h
    subst h
    decide
  · split at h
    · injection h with h
      subst h
      decide
    · split at h
      · split at h
        · injection h with h
          subst h
          rw [modelNotFoundMsg]
          exact strStartsWith_append _ _ _ (by decide)
        · exact Except.noConfusion h
      · injection h with h
        subst h
        rw [genericFailureMsg]
        exact strStartsWith_append _ _ _ (by decide)

/-! Claim theorems. -/

/-- C2: for every topic string and every word_count in [150, 3000], the
prompt built by generate_recipe_blog contains the literal topic string and
the literal decimal rendering of word_count as substrings. -/
theorem c2_prompt_contains_topic_and_word_count (topic : String) (word_count : Nat)
    (h1 : 150 ≤ word_count) (h2 : word_count ≤ 3000) :
    ContainsSub (buildPrompt topic word_count) topic ∧
      ContainsSub (buildPrompt topic word_count) (toString word_count) := by
  constructor
  · refine ⟨promptPart1,
      promptPart2 ++ toString word_count ++ promptPart3 ++ toString word_count ++ promptPart4,
      String.ext ?_⟩
    simp [buildPrompt, String.data_append, List.append_assoc]
  · refine ⟨promptPart1 ++ topic ++ promptPart2,
      promptPart3 ++ toString word_count ++ promptPart4, String.ext ?_⟩
    simp [buildPrompt, String.data_append, List.append_assoc]

/-- C2 witness at topic "Vegan Chocolate Cake" and word count 600. -/
theorem c2_witness :
    150 ≤ 600 ∧ 600 ≤ 3000 ∧
      (ContainsSub (buildPrompt "Vegan Chocolate Cake" 600) "Vegan Chocolate Cake" ∧
        ContainsSub (buildPrompt "Vegan Chocolate Cake" 600) (toString 600)) :=
  ⟨by decide, by decide,
    c2_prompt_contains_topic_and_word_count "Vegan Chocolate Cake" 600 (by decide) (by decide)⟩

/-- C3: for every successful API response (one whose text attribute is
readable without error), generate_recipe_blog returns exactly the
response text, unmodified. -/
theorem c3_success_returns_text_unmodified (env : ApiEnv) (api_key topic : String)
    (word_count : Nat) (r : ApiResponse) (t : String)
    (hc : env.configure api_key = Except.ok ()) (hm : env.modelCtor = Except.ok ())
    (hg : env.generate (buildPrompt topic word_count) = Except.ok r)
    (ht : r.textAccess = TextAccess.ok t) :
    (generate_recipe_blog env api_key topic word_count).2 = Except.ok t := by
  simp [generate_recipe_blog, hc, hm, hg, handleResponse, ht]

/-- C3 witness with a concrete all-success environment. -/
theorem c3_witness :
    (generate_recipe_blog (envOk (okResponse "A tasty post")) "key" "Pasta" 600).2
      = Except.ok "A tasty post" :=
  c3_success_returns_text_unmodified (envOk (okResponse "A tasty post")) "key" "Pasta" 600
    (okResponse "A tasty post") "A tasty post" rfl rfl rfl rfl

/-- C4: for every exception raised by the API call whose message contains
"API key not valid", generate_recipe_blog returns a string starting with
the invalid-credential error message and does not raise. -/
theorem c4_invalid_key_classified (env : ApiEnv) (api_key topic : String) (word_count : Nat)
    (e : String)
    (hc : env.configure api_key = Except.ok ()) (hm : env.modelCtor = Except.ok ())
    (hg : env.generate (buildPrompt topic word_count) = Except.error e)
    (hkey : ContainsSub e "API key not valid") :
    ∃ s, (generate_recipe_blog env api_key topic word_count).2 = Except.ok s ∧
      StartsWithStr s invalidKeyMsg := by
  refine ⟨invalidKeyMsg, ?_, ⟨"", (String.append_empty _).symm⟩⟩
  simp [generate_recipe_blog, hc, hm, hg, handleOuterExn, strContains_eq_true hkey]

/-- C4 witness with a concrete invalid-key exception message. -/
theorem c4_witness :
    ∃ s, (generate_recipe_blog (envCallRaise "API key not valid. Please pass a valid API key.")
        "k" "Pasta" 600).2 = Except.ok s ∧ StartsWithStr s invalidKeyMsg :=
  c4_invalid_key_classified (envCallRaise "API key not valid. Please pass a valid API key.")
    "k" "Pasta" 600 "API key not valid. Please pass a valid API key." rfl rfl rfl
    ⟨"", ". Please pass a valid API key.", rfl⟩

/-- C5: for every exception raised by the API call, generate_recipe_blog
classifies it by substring match on the message: "API key not valid"
yields the invalid-credential string; otherwise "permission" in any
letter case yields the insufficient-permission string; otherwise "404"
together with "models/" yields the model-not-found string; any other
message yields the generic-failure string with the original message
embedded in it. -/
theorem c5_error_classification (env : ApiEnv) (api_key topic : String) (word_count : Nat)
    (e : String)
    (hc : env.configure api_key = Except.ok ()) (hm : env.modelCtor = Except.ok ())
    (hg : env.generate (buildPrompt topic word_count) = Except.error e) :
    (ContainsSub e "API key not valid" →
        (generate_recipe_blog env api_key topic word_count).2 = Except.ok invalidKeyMsg) ∧
    (¬ ContainsSub e "API key not valid" → ContainsSub (strLower e) "permission" →
        (generate_recipe_blog env api_key topic word_count).2 = Except.ok permissionMsg) ∧
    (¬ ContainsSub e "API key not valid" → ¬ ContainsSub (strLower e) "permission" →
        ContainsSub e "404" → ContainsSub e "models/" →
        (generate_recipe_blog env api_key topic word_count).2
          = Except.ok (modelNotFoundMsg e)) ∧
    (¬ ContainsSub e "API key not valid" → ¬ ContainsSub (strLower e) "permission" →
        ¬ (ContainsSub e "404" ∧ ContainsSub e "models/") →
        (generate_recipe_blog env api_key topic word_count).2
            = Except.ok (genericFailureMsg e) ∧
          ContainsSub (genericFailureMsg e) e) := by
  refine ⟨fun h1 => ?_, fun h1 h2 => ?_, fun h1 h2 h3 h4 => ?_, fun h1 h2 h34 => ?_⟩
  · simp [generate_recipe_blog, hc, hm, hg, handleOuterExn, strContains_eq_true h1]
  · simp [generate_recipe_blog, hc, hm, hg, handleOuterExn, strContains_eq_false h1,
      strContains_eq_true h2]
  · simp [generate_recipe_blog, hc, hm, hg, handleOuterExn, strContains_eq_false h1,
      strContains_eq_false h2, strContains_eq_true h3, strContains_eq_true h4]
  · have hb : (strContains e "404" && strContains e "models/") = false := by
      rcases not_and_or.mp h34 with h | h
      · simp [strContains_eq_false h]
      · simp [strContains_eq_false h]
    refine ⟨?_, "Error: An unexpected error occurred during generation. Details: ", "", ?_⟩
    · simp [generate_recipe_blog, hc, hm, hg, handleOuterExn, strContains_eq_false h1,
        strContains_eq_false h2, hb]
    · simp [genericFailureMsg, String.append_empty]

/-- C5 witness: a message matching none of the specific patterns is
classified as a generic failure with the message embedded. -/
theorem c5_witness :
    (generate_recipe_blog (envCallRaise "Deadline Exceeded") "k" "Pasta" 600).2
        = Except.ok (genericFailureMsg "Deadline Exceeded") ∧
      ContainsSub (genericFailureMsg "Deadline Exceeded") "Deadline Exceeded" :=
  (c5_error_classification (envCallRaise "Deadline Exceeded") "k" "Pasta" 600
      "Deadline Exceeded" rfl rfl rfl).2.2.2
    (fun h => absurd (strContains_eq_true h) (by decide))
    (fun h => absurd (strContains_eq_true h) (by decide))
    (fun h => absurd (strContains_eq_true h.1) (by decide))

/-- C6: for every API response that is blocked (reading its text raises
ValueError) and has no parts, generate_recipe_blog returns a string that
mentions the block reason (or "Unknown" when none is discoverable) and
states that no content is available. -/
theorem c6_blocked_no_parts_message (env : ApiEnv) (api_key topic : String) (word_count : Nat)
    (r : ApiResponse)
    (hc : env.configure api_key = Except.ok ()) (hm : env.modelCtor = Except.ok ())
    (hg : env.generate (buildPrompt topic word_count) = Except.ok r)
    (hv : r.textAccess = TextAccess.valueError) (hp : r.parts = []) :
    ∃ s, (generate_recipe_blog env api_key topic word_count).2 = Except.ok s ∧
      ContainsSub s (blockReasonOf r) ∧ ContainsSub s "No content available." := by
  refine ⟨"Error: Content generation failed or was blocked (Reason: " ++ blockReasonOf r
      ++ "). No content available.", ?_, ?_, ?_⟩
  · simp [generate_recipe_blog, hc, hm, hg, handleResponse, hv, hp]
  · exact ⟨"Error: Content generation failed or was blocked (Reason: ",
      "). No content available.", rfl⟩
  · exact containsSub_appendLeft _
      ((ContainsSub_iff_sublist _ _).mpr ((charsContain_iff _ _).mp (by decide)))

/-- C6 witness with a concrete blocked response carrying reason SAFETY. -/
theorem c6_witness :
    ∃ s,
      (generate_recipe_blog (envOk blockedNoPartsResp) "k" "Pasta" 600).2 = Except.ok s ∧
        ContainsSub s (blockReasonOf blockedNoPartsResp) ∧
        ContainsSub s "No content available." :=
  c6_blocked_no_parts_message (envOk blockedNoPartsResp) "k" "Pasta" 600 blockedNoPartsResp
    rfl rfl rfl rfl rfl

/-- C7: for every API response that is blocked (reading its text raises
ValueError) but has a non-empty parts list, generate_recipe_blog returns
a string that includes the text of the first part as a substring. -/
theorem c7_blocked_partial_text_included (env : ApiEnv) (api_key topic : String)
    (word_count : Nat) (r : ApiResponse) (p : String) (ps : List String)
    (hc : env.configure api_key = Except.ok ()) (hm : env.modelCtor = Except.ok ())
    (hg : env.generate (buildPrompt topic word_count) = Except.ok r)
    (hv : r.textAccess = TextAccess.valueError) (hp : r.parts = p :: ps) :
    ∃ s, (generate_recipe_blog env api_key topic word_count).2 = Except.ok s ∧
      ContainsSub s p := by
  refine ⟨"Warning: Content generation issue (Reason: " ++ blockReasonOf r
      ++ "). Partial content (if any): " ++ p, ?_, ?_⟩
  · simp [generate_recipe_blog, hc, hm, hg, handleResponse, hv, hp]
  · exact ⟨"Warning: Content generation issue (Reason: " ++ blockReasonOf r
      ++ "). Partial content (if any): ", "", (String.append_empty _).symm⟩

/-- C7 witness with a concrete blocked response carrying a partial part. -/
theorem c7_witness :
    ∃ s,
      (generate_recipe_blog (envOk blockedPartialResp) "k" "Pasta" 600).2 = Except.ok s ∧
        ContainsSub s "partial draft" :=
  c7_blocked_partial_text_included (envOk blockedPartialResp) "k" "Pasta" 600
    blockedPartialResp "partial draft" [] rfl rfl rfl rfl rfl

/-- C8: when the generate button is pressed with an empty api_key or an
empty topic, the shell does not invoke generate_recipe_blog at all; the
generator is invoked exactly when both are non-empty. -/
theorem c8_shell_validates_inputs (env : ApiEnv) (api_key recipe_topic : String)
    (word_count : Nat) :
    ((api_key = "" ∨ recipe_topic = "") →
        (generate_button_handler env api_key recipe_topic word_count).generatorInvoked
          = false) ∧
    (api_key ≠ "" → recipe_topic ≠ "" →
        (generate_button_handler env api_key recipe_topic word_count).generatorInvoked
          = true) := by
  constructor
  · rintro (h | h)
    · simp [generate_button_handler, h]
    · by_cases hk : api_key = ""
      · simp [generate_button_handler, hk]
      · simp [generate_button_handler, hk, h]
  · intro hk ht
    cases hres : generate_recipe_blog env api_key recipe_topic word_count with
    | mk ds res =>
      cases res <;> simp [generate_button_handler, hk, ht, hres]

/-- C8 witness: with an empty api key the generator is not invoked. -/
theorem c8_witness :
    (generate_button_handler (envOk (okResponse "Hello")) "" "Pasta" 600).generatorInvoked
      = false :=
  (c8_shell_validates_inputs (envOk (okResponse "Hello")) "" "Pasta" 600).1 (Or.inl rfl)

/-- C1: evaluation of generate_recipe_blog at the failing input.  When
`genai.configure` raises before line 17 binds `model_name`, with a
message containing both "404" and "models/", the except handler of lines
69-80 evaluates the f-string of line 78 referencing the unbound local
`model_name`, and the resulting UnboundLocalError escapes to the caller
instead of being converted to an error string. -/
theorem c1_unbound_model_name_propagates :
    (generate_recipe_blog
        (envConfigRaise
          "404 Requested entity was not found: models/gemini-1.5-pro-latest is not available")
        "some-key" "Pasta" 600).2
      = Except.error unboundLocalErrorMsg := by
  rfl

/-- C9 counterexample: the claim that generate_recipe_blog does not write
to the user-visible display is false at a concrete input.  Even a fully
successful call writes the `st.info` message of line 18. -/
theorem c9_counterexample :
    (generate_recipe_blog (envOk (okResponse "Hello")) "key" "Pasta" 600).1 ≠ [] := by
  decide

/-- C9 (amended): beyond the network call and its return value,
generate_recipe_blog also writes to the display, but nothing else: every
display write it performs is the info message naming the model (line 18),
a warning that content generation was potentially blocked with the
reason (line 58), or an error message reporting a caught exception
(line 71); no other outside state is mutated. -/
theorem c9_display_writes_characterized (env : ApiEnv) (api_key topic : String)
    (word_count : Nat) :
    ∀ d ∈ (generate_recipe_blog env api_key topic word_count).1,
      d = modelInfoWrite ∨
        (∃ reason,
          d = DisplayWrite.warning ("Content generation potentially blocked. Reason: " ++ reason)) ∨
        (∃ msg,
          d = DisplayWrite.error ("An error occurred during API call or processing: " ++ msg)) := by
  intro d hd
  cases hc : env.configure api_key with
  | error e =>
    simp only [generate_recipe_blog, hc, handleOuterExn] at hd
    simp at hd
    exact Or.inr (Or.inr ⟨e, hd⟩)
  | ok u =>
    cases hm : env.modelCtor with
    | error e =>
      simp only [generate_recipe_blog, hc, hm, handleOuterExn] at hd
      simp at hd
      rcases hd with hd | hd
      · exact Or.inl hd
      · exact Or.inr (Or.inr ⟨e, hd⟩)
    | ok v =>
      cases hg : env.generate (buildPrompt topic word_count) with
      | error e =>
        simp only [generate_recipe_blog, hc, hm, hg, handleOuterExn] at hd
        simp at hd
        rcases hd with hd | hd
        · exact Or.inl hd
        · exact Or.inr (Or.inr ⟨e, hd⟩)
      | ok r =>
        simp only [generate_recipe_blog, hc, hm, hg] at hd
        cases hta : r.textAccess with
        | ok t =>
          simp [handleResponse, hta] at hd
          exact Or.inl hd
        | valueError =>
          cases hp : r.parts with
          | nil =>
            simp [handleResponse, hta, hp, blockedWarnWrite] at hd
            rcases hd with hd | hd
            · exact Or.inl hd
            · exact Or.inr (Or.inl ⟨blockReasonOf r, hd⟩)
          | cons p ps =>
            simp [handleResponse, hta, hp, blockedWarnWrite] at hd
            rcases hd with hd | hd
            · exact Or.inl hd
            · exact Or.inr (Or.inl ⟨blockReasonOf r, hd⟩)
        | otherError m =>
          simp [handleResponse, hta] at hd
          exact Or.inl hd

/-- C9 witness: the info write of a successful call is of one of the
three characterized forms. -/
theorem c9_witness :
    modelInfoWrite = modelInfoWrite ∨
      (∃ reason,
        modelInfoWrite
          = DisplayWrite.warning ("Content generation potentially blocked. Reason: " ++ reason)) ∨
      (∃ msg,
        modelInfoWrite
          = DisplayWrite.error ("An error occurred during API call or processing: " ++ msg)) :=
  c9_display_writes_characterized (envOk (okResponse "Hello")) "key" "Pasta" 600
    modelInfoWrite (by decide)

/-- C10: every string returned by generate_recipe_blog other than the
success passthrough starts with "Error:" or "Warning:", and the shell
styles the result solely by testing those prefixes, so any successfully
generated text that itself starts with "Error:" (or "Warning:") is
displayed with error (or warning) styling instead of rendered markdown. -/
theorem c10_error_warning_prefix_styling (env : ApiEnv) (api_key topic : String)
    (word_count : Nat) (s : String)
    (hok : (generate_recipe_blog env api_key topic word_count).2 = Except.ok s)
    (hns : ¬ SuccessPassthrough env api_key topic word_count s) :
    (strStartsWith s "Error:" = true ∨ strStartsWith s "Warning:" = true) ∧
    (∀ u, strStartsWith u "Error:" = true → display_result u = DisplayWrite.error u) ∧
    (∀ u, strStartsWith u "Error:" = false → strStartsWith u "Warning:" = true →
        display_result u = DisplayWrite.warning u) := by
  refine ⟨?_, ?_, ?_⟩
  · cases hc : env.configure api_key with
    | error e =>
      simp only [generate_recipe_blog, hc] at hok
      exact Or.inl (handleOuterExn_ok_error false e s hok)
    | ok u =>
      cases hm : env.modelCtor with
      | error e =>
        simp only [generate_recipe_blog, hc, hm] at hok
        exact Or.inl (handleOuterExn_ok_error true e s hok)
      | ok v =>
        cases hg : env.generate (buildPrompt topic word_count) with
        | error e =>
          simp only [generate_recipe_blog, hc, hm, hg] at hok
          exact Or.inl (handleOuterExn_ok_error true e s hok)
        | ok r =>
          simp only [generate_recipe_blog, hc, hm, hg] at hok
          cases hta : r.textAccess with
          | ok t =>
            exfalso
            apply hns
            refine ⟨?_, ?_, r, hg, ?_⟩
            · cases u; exact hc
            · cases v; exact hm
            · rw [hta]
              simp [handleResponse, hta] at hok
              rw [hok]
          | valueError =>
            cases hp : r.parts with
            | nil =>
              simp [handleResponse, hta, hp] at hok
              subst hok
              refine Or.inl (strStartsWith_append _ _ _ (strStartsWith_append _ _ _ ?_))
              decide
            | cons p ps =>
              simp [handleResponse, hta, hp] at hok
              subst hok
              refine Or.inr
                (strStartsWith_append _ _ _ (strStartsWith_append _ _ _
                  (strStartsWith_append _ _ _ ?_)))
              decide
          | otherError m =>
            simp [handleResponse, hta] at hok
            subst hok
            exact Or.inl (strStartsWith_append _ _ _ (by decide))
  · intro u hu
    have hne : u ≠ "" := by
      rintro rfl
      exact absurd hu (by decide)
    simp [display_result, hne, hu]
  · intro u hu hw
    have hne : u ≠ "" := by
      rintro rfl
      exact absurd hw (by decide)
    simp [display_result, hne, hu, hw]

/-- C10 witness: a generic API failure yields an "Error:"-prefixed string
outside the success passthrough. -/
theorem c10_witness :
    strStartsWith (genericFailureMsg "boom") "Error:" = true ∨
      strStartsWith (genericFailureMsg "boom") "Warning:" = true :=
  (c10_error_warning_prefix_styling (envCallRaise "boom") "k" "Pasta" 600
      (genericFailureMsg "boom") rfl
      (by rintro ⟨-, -, r, hr, -⟩; simp [envCallRaise] at hr)).1

end FlavourFusion
